import Mathlib

/-!
Verification of the real-time Invoice Journey synchronization client and the
task-action reconciler of the invoice-poc dashboard.

The embedding below mirrors, field by field and branch by branch, the event
handlers of the `InvoiceJourney` component in
`frontend/src/pages/SubmitInvoice.jsx` (the `init`, `step` and `deleted`
SSE listeners and the rendered status line), the `Tasks` page component
(`handleApprove` / `handleReject` and the `disabled={actioning}` buttons),
and the `TaskRow` component (`handleAction`, the `disabled` guard).

JavaScript truthiness on optional strings (`a || b`) is modelled by `jsOr`;
the nullish operator (`a ?? b`) is modelled by `Option.orElse`.  JSON parse
failures are modelled by `none` payloads (the handlers catch, log and leave
the state untouched).
-/

namespace InvoicePoc

/-- A journey step as it appears on the wire.  Only the fields the client
reads are modelled: `type`, `status`, `to` (named `toStatus` here because
`to` is reserved), `result.status` (flattened to `resultStatus`), `agent`,
`note`.  Absent JSON fields are `none`. -/
structure Step where
  type : Option String
  status : Option String
  toStatus : Option String
  resultStatus : Option String
  agent : Option String
  note : Option String
deriving DecidableEq, Repr

/-- A step with every field absent; a convenient base for literals. -/
def Step.empty : Step :=
  { type := none, status := none, toStatus := none, resultStatus := none,
    agent := none, note := none }

/-- JavaScript `a || b` on optional strings: `undefined`/`null` and the
empty string are falsy. -/
def jsOr (a b : Option String) : Option String :=
  match a with
  | some s => if s = "" then b else some s
  | none => b

/-- JavaScript truthiness of an optional string value. -/
def jsTruthy : Option String → Bool
  | none => false
  | some s => s != ""

/-- Decoded payload of a `step` SSE event: `data.step`, which may be
absent (`if (data?.step)` then skips the whole handler body). -/
structure StepData where
  step : Option Step
deriving DecidableEq, Repr

/-- The `workflow` object of an `init` payload: `wf.steps` may be absent
(`wf.steps || []`). -/
structure Workflow where
  steps : Option (List Step)
deriving DecidableEq, Repr

/-- Decoded payload of an `init` SSE event: `data?.workflow || {}`. -/
structure InitData where
  workflow : Option Workflow
deriving DecidableEq, Repr

/-- A raw SSE event as dispatched to the three listeners.  A `none`
payload models an event whose `ev.data` is not decodable JSON
(`JSON.parse` throws and the `catch` block only logs). -/
inductive RawEvent where
  | init (data : Option InitData)
  | step (data : Option StepData)
  | deleted
deriving DecidableEq, Repr

/-- The component state the listeners mutate: the `steps` and `status`
`useState` hooks of `InvoiceJourney`. -/
structure JourneyState where
  steps : List Step
  status : Option String
deriving DecidableEq, Repr

/-- Initial hook state: `useState([])` and `useState(null)`. -/
def journeyInit : JourneyState :=
  { steps := [], status := none }

/-- The step list carried by an `init` payload:
`(data?.workflow || {}).steps || []`. -/
def initSteps (d : InitData) : List Step :=
  ((d.workflow.getD { steps := none }).steps).getD []

/-- Status derived by the `init` listener from the hydrated list:
`last?.status ?? last?.to ?? null` where `last = steps.slice(-1)[0]`. -/
def initStatus (steps : List Step) : Option String :=
  match steps.getLast? with
  | none => none
  | some l => l.status <|> l.toStatus

/-- The `init` listener: on a decodable payload it replaces `steps`
wholesale and recomputes `status` from the new list; on a parse error the
state is untouched. -/
def applyInit (d : Option InitData) (st : JourneyState) : JourneyState :=
  match d with
  | none => st
  | some data =>
    { steps := initSteps data, status := initStatus (initSteps data) }

/-- Status computed by the `step` listener from the incoming step alone:
`s.type === "status_change" ? s.to : (s.status || s.result?.status || "UNKNOWN")`. -/
def stepStatus (s : Step) : Option String :=
  if s.type = some "status_change" then s.toStatus
  else jsOr s.status (jsOr s.resultStatus (some "UNKNOWN"))

/-- The `step` listener: a decodable payload carrying a `step` field is
appended unconditionally and `status` is overwritten from that step; a
payload without a `step` field, or an undecodable one, leaves the state
untouched. -/
def applyStepEvt (d : Option StepData) (st : JourneyState) : JourneyState :=
  match d with
  | none => st
  | some data =>
    match data.step with
    | none => st
    | some s => { steps := st.steps ++ [s], status := stepStatus s }

/-- The synthetic step appended by the `deleted` listener:
`{ agent: "system", status: "deleted", note: "Invoice document deleted" }`. -/
def deletedStep : Step :=
  { Step.empty with
    agent := some "system",
    status := some "deleted",
    note := some "Invoice document deleted" }

/-- The `deleted` listener: appends the synthetic step; `status` is not
written by this listener. -/
def applyDeleted (st : JourneyState) : JourneyState :=
  { steps := st.steps ++ [deletedStep], status := st.status }

/-- Dispatch of one raw event to its listener. -/
def applyEvent (st : JourneyState) (e : RawEvent) : JourneyState :=
  match e with
  | RawEvent.init d => applyInit d st
  | RawEvent.step d => applyStepEvt d st
  | RawEvent.deleted => applyDeleted st

/-- Replay of a list of raw events in arrival order. -/
def replay (st : JourneyState) (es : List RawEvent) : JourneyState :=
  es.foldl applyEvent st

/-- A well-formed `step` event carrying step `s`. -/
def stepEvent (s : Step) : RawEvent :=
  RawEvent.step (some { step := some s })

/-- The status line the component renders: `{status || "N/A"}`. -/
def displayedStatus (st : JourneyState) : String :=
  match st.status with
  | none => "N/A"
  | some s => if s = "" then "N/A" else s

/-- An event whose payload is not decodable JSON. -/
def isMalformed : RawEvent → Bool
  | RawEvent.init none => true
  | RawEvent.step none => true
  | _ => false

/-- Outcome of an awaited action request: 2xx response, or a network
error / non-2xx response (both throw into the `catch` block). -/
inductive Outcome where
  | ok
  | fail
deriving DecidableEq, Repr

/-! ### TaskRow component (optimistic action row) -/

/-- State hooks of `TaskRow`: `submitting` and `invoiceStatus`. -/
structure TRState where
  submitting : Bool
  invoiceStatus : Option String
deriving DecidableEq, Repr

/-- The terminal invoice statuses listed in `TaskRow`:
`['READY_FOR_POSTING','REJECTED','POSTED','CANCELLED'].includes(invoiceStatus)`;
a `null` status is not in the list. -/
def isTerminal (s : Option String) : Bool :=
  match s with
  | some v =>
    v == "READY_FOR_POSTING" || v == "REJECTED" || v == "POSTED" ||
      v == "CANCELLED"
  | none => false

/-- The `disabled` flag on both TaskRow buttons:
`submitting || task.status === 'completed' || isTerminal`. -/
def trDisabled (st : TRState) (taskStatus : Option String) : Bool :=
  st.submitting || taskStatus == some "completed" || isTerminal st.invoiceStatus

/-- A (confirmed) click on a TaskRow button: a disabled button does not
fire its handler, so nothing changes and no request is sent; otherwise
`handleAction` sets `submitting` and issues the POST.  The second
component records whether a request was sent. -/
def trClickStart (st : TRState) (taskStatus : Option String) :
    TRState × Bool :=
  if trDisabled st taskStatus then (st, false)
  else ({ st with submitting := true }, true)

/-- Observable result of the tail of `TaskRow.handleAction` once the
request settles: the new state, the user-visible messages shown (console
logging is not user-visible), and whether `onTaskRemoved` was called. -/
structure TREffect where
  state : TRState
  userMessages : List String
  taskRemoved : Bool
deriving DecidableEq, Repr

/-- Tail of `TaskRow.handleAction` after the awaited fetch settles.  On
success: `onTaskRemoved(task._id)`.  On failure: `console.error(err)`
only — the `catch` block shows no user-visible message (the source marks
this with a TODO).  Either way, `finally` resets `submitting`;
`invoiceStatus` is never written by the handler (no optimistic status is
applied, so there is nothing to revert). -/
def trSettle (st : TRState) (oc : Outcome) : TREffect :=
  match oc with
  | Outcome.ok =>
    { state := { st with submitting := false }, userMessages := [],
      taskRemoved := true }
  | Outcome.fail =>
    { state := { st with submitting := false }, userMessages := [],
      taskRemoved := false }

/-! ### Tasks page component (`Tasks` in the file that also holds `POs`) -/

/-- A pending task row: `_id` and `id` (either may be absent — the code
reads `t._id || t.id`), the task `type`, and `invoice_id`. -/
structure Task where
  tid1 : Option String
  tid2 : Option String
  ttype : String
  invoiceId : String
deriving DecidableEq, Repr

/-- The value `task._id || task.id` passed to `setActioning`. -/
def taskKey (t : Task) : Option String :=
  jsOr t.tid1 t.tid2

/-- State hooks of the `Tasks` page: the fetched task list and the
`actioning` flag (`null`, or the clicked task's key). -/
structure TasksState where
  tasks : List Task
  actioning : Option String
deriving DecidableEq, Repr

/-- The `disabled={actioning}` flag shared by the Approve and Reject
buttons of every approval row: it tests only the truthiness of
`actioning`, independently of which row is rendered. -/
def tasksButtonDisabled (st : TasksState) : Bool :=
  jsTruthy st.actioning

/-- The Approve / Reject buttons of a rendered row: `some disabled` for
an `approval` row, `none` for rows that render Open / Edit instead. -/
def rowButtonsDisabled (st : TasksState) (t : Task) : Option Bool :=
  if t.ttype = "approval" then some (tasksButtonDisabled st) else none

/-- A (confirmed) click on Approve or Reject for task `t`: a disabled
button does not fire its handler; otherwise `handleApprove` /
`handleReject` sets `actioning` to the task key and issues the request.
The second component is the request sent, as `(invoice_id, action)`. -/
def tasksClickStart (st : TasksState) (t : Task) (action : String) :
    TasksState × Option (String × String) :=
  if tasksButtonDisabled st then (st, none)
  else ({ st with actioning := taskKey t }, some (t.invoiceId, action))

/-- Tail of `Tasks.handleApprove` / `handleReject` once the request
settles: on success an alert is shown and `load()` replaces the task
list with the server's; on failure an alert surfaces the error and the
list is untouched.  `finally` always resets `actioning` to `null`.  The
second component is the list of user-visible messages (alerts). -/
def tasksSettle (st : TasksState) (action : String) (oc : Outcome)
    (serverTasks : List Task) : TasksState × List String :=
  match oc with
  | Outcome.ok =>
    ({ tasks := serverTasks, actioning := none },
      [if action = "approve" then "Approved" else "Rejected"])
  | Outcome.fail =>
    ({ tasks := st.tasks, actioning := none },
      [(if action = "approve" then "Approve" else "Reject") ++ " failed"])

/-! ### Spec-side definitions (for refinement comparison only)

These two definitions follow the specification's words, not the source:
"`currentStatus`: derived — the `statusHint` of the most recently
appended step that carries one, else `N/A`", with "`statusHint`: `to`
field for `status_change`, else derived from payload". -/

/-- Spec reading of a step's optional status hint. -/
def specStatusHint (s : Step) : Option String :=
  if s.type = some "status_change" then s.toStatus
  else s.status <|> s.resultStatus

/-- Spec reading of the derived current status of a step list. -/
def specCurrentStatus (steps : List Step) : String :=
  ((steps.filterMap specStatusHint).getLast?).getD "N/A"

/-! ### Sample data for counterexamples and witnesses -/

/-- An agent-result step carrying a status. -/
def sampleValidated : Step :=
  { Step.empty with
    type := some "agent_result",
    agent := some "validator",
    status := some "VALIDATED" }

/-- A step whose only payload is a status. -/
def sampleReceived : Step :=
  { Step.empty with status := some "RECEIVED" }

/-- An agent-result step carrying no status information at all. -/
def sampleBare : Step :=
  { Step.empty with type := some "agent_result" }

/-! ### Replay helper lemmas -/

theorem replay_cons (st : JourneyState) (e : RawEvent) (es : List RawEvent) :
    replay st (e :: es) = replay (applyEvent st e) es := rfl

theorem replay_append (st : JourneyState) (l1 l2 : List RawEvent) :
    replay st (l1 ++ l2) = replay (replay st l1) l2 := by
  simp [replay, List.foldl_append]

theorem replay_map_stepEvent (ss : List Step) :
    ∀ st : JourneyState,
      (replay st (ss.map stepEvent)).steps = st.steps ++ ss := by
  induction ss with
  | nil => intro st; simp [replay]
  | cons s ss ih =>
    intro st
    rw [List.map_cons, replay_cons, ih]
    simp [applyEvent, applyStepEvt, stepEvent]

/-! ### Claim theorems -/

/-- Claim C1, counterexample: delivering the very same step payload twice
in immediate succession yields TWO entries in `steps`, not exactly one —
the `step` listener appends unconditionally and performs no duplicate
suppression. -/
theorem applyStep_duplicate_appended_cex :
    (replay journeyInit [stepEvent sampleValidated, stepEvent sampleValidated]).steps.length = 2 ∧
      ¬ (replay journeyInit [stepEvent sampleValidated, stepEvent sampleValidated]).steps.length = 1 := by
  decide

/-- Claim C1, amended: there is no duplicate window — every `step` event
whose payload carries a `step` field is appended, so the same payload
delivered twice in immediate succession appends exactly two entries. -/
theorem applyStep_appends_unconditionally :
    ∀ (es : List RawEvent) (s : Step),
      (replay journeyInit (es ++ [stepEvent s, stepEvent s])).steps =
        (replay journeyInit es).steps ++ [s, s] := by
  intro es s
  rw [replay_append, replay_cons, replay_cons]
  simp [replay, applyEvent, applyStepEvt, stepEvent]

/-- Claim C2, counterexample: after a `deleted` event the store is not
frozen — a subsequent `step` event still grows `steps` (from length 1 to
length 2 here). -/
theorem applyDeleted_not_frozen_cex :
    (replay journeyInit [RawEvent.deleted]).steps.length = 1 ∧
      (replay journeyInit [RawEvent.deleted, stepEvent sampleValidated]).steps.length = 2 := by
  decide

/-- Claim C2, amended: a `deleted` event appends the synthetic
system/deleted step, but nothing freezes the store — a subsequently
applied `step` event is still appended after the synthetic terminal
step. -/
theorem applyStep_after_deleted_appends :
    ∀ (es : List RawEvent) (s : Step),
      (replay journeyInit (es ++ [RawEvent.deleted, stepEvent s])).steps =
        (replay journeyInit es).steps ++ [deletedStep, s] := by
  intro es s
  rw [replay_append, replay_cons, replay_cons]
  simp [replay, applyEvent, applyStepEvt, applyDeleted, stepEvent]

/-- Claim C3, counterexample: after a step carrying status `RECEIVED`
followed by a step with no status information, the code displays
`UNKNOWN`, while the claim (the `statusHint` of the most recently
appended step that carries one) predicts `RECEIVED` — a hint-less step
does not leave the current status unchanged. -/
theorem currentStatus_not_last_hint_cex :
    displayedStatus (replay journeyInit [stepEvent sampleReceived, stepEvent sampleBare]) = "UNKNOWN" ∧
      specCurrentStatus (replay journeyInit [stepEvent sampleReceived, stepEvent sampleBare]).steps = "RECEIVED" ∧
      displayedStatus (replay journeyInit [stepEvent sampleReceived, stepEvent sampleBare]) ≠
        specCurrentStatus (replay journeyInit [stepEvent sampleReceived, stepEvent sampleBare]).steps := by
  decide

/-- Claim C3, amended: the current status is recomputed from each newly
applied step alone — `to` for a `status_change` step, else
`status || result.status || "UNKNOWN"` — so after any event history the
status equals `stepStatus` of the last applied step (in particular a
step with no status information sets it to `UNKNOWN` rather than
leaving it unchanged). -/
theorem status_overwritten_by_last_step :
    ∀ (es : List RawEvent) (s : Step),
      (replay journeyInit (es ++ [stepEvent s])).status = stepStatus s := by
  intro es s
  rw [replay_append, replay_cons]
  simp [replay, applyEvent, applyStepEvt, stepEvent]

/-- Claim C4: a decodable `init` (hydrate) event replaces the journey
state wholesale — after it, whatever events came before, `steps` is
exactly the payload's step list and the status is recomputed from that
list alone; nothing from the prior step list survives. -/
theorem applyInit_replaces_wholesale :
    ∀ (es : List RawEvent) (d : InitData),
      replay journeyInit (es ++ [RawEvent.init (some d)]) =
        { steps := initSteps d, status := initStatus (initSteps d) } := by
  intro es d
  rw [replay_append, replay_cons]
  rfl

/-- Claim C7: replaying any duplicate-free sequence of well-formed
`step` events from the initial state yields a `steps` list equal to the
input sequence in arrival order — nothing dropped, reordered or
inserted. -/
theorem replay_nodup_preserves_sequence :
    ∀ (ss : List Step), ss.Nodup →
      (replay journeyInit (ss.map stepEvent)).steps = ss := by
  intro ss h
  rw [replay_map_stepEvent]
  rfl

/-- Claim C7, witness: a concrete duplicate-free two-step sequence
replays to itself. -/
theorem replay_nodup_preserves_sequence_witness :
    [sampleReceived, sampleValidated].Nodup ∧
      (replay journeyInit ([sampleReceived, sampleValidated].map stepEvent)).steps =
        [sampleReceived, sampleValidated] :=
  ⟨by decide, replay_nodup_preserves_sequence [sampleReceived, sampleValidated] (by decide)⟩

/-- Claim C8: an event whose payload is not decodable JSON is dropped in
isolation — it leaves the journey state unchanged, and a replay
containing it equals the replay with it removed, so later well-formed
events are still applied (the listeners catch the parse error and never
close the channel). -/
theorem malformed_event_dropped :
    ∀ (st : JourneyState) (e : RawEvent) (pre suf : List RawEvent),
      isMalformed e = true →
      applyEvent st e = st ∧
        replay st (pre ++ e :: suf) = replay st (pre ++ suf) := by
  intro st e pre suf h
  have ha : ∀ s : JourneyState, applyEvent s e = s := by
    intro s
    cases e with
    | init d =>
      cases d with
      | none => rfl
      | some v => simp [isMalformed] at h
    | step d =>
      cases d with
      | none => rfl
      | some v => simp [isMalformed] at h
    | deleted => simp [isMalformed] at h
  refine ⟨ha st, ?_⟩
  rw [replay_append, replay_append, replay_cons, ha]

/-- Claim C8, witness: a concrete undecodable `step` event between two
well-formed events changes nothing. -/
theorem malformed_event_dropped_witness :
    isMalformed (RawEvent.step none) = true ∧
      (applyEvent journeyInit (RawEvent.step none) = journeyInit ∧
        replay journeyInit ([stepEvent sampleReceived] ++ RawEvent.step none :: [stepEvent sampleValidated]) =
          replay journeyInit ([stepEvent sampleReceived] ++ [stepEvent sampleValidated])) :=
  ⟨rfl, malformed_event_dropped journeyInit (RawEvent.step none)
    [stepEvent sampleReceived] [stepEvent sampleValidated] rfl⟩

/-- Claim C9: a well-formed `step` event whose decoded payload lacks a
`step` field is silently ignored — the journey state, and hence the
displayed current status, are both left unchanged. -/
theorem step_without_field_noop :
    ∀ st : JourneyState,
      applyEvent st (RawEvent.step (some { step := none })) = st ∧
        displayedStatus (applyEvent st (RawEvent.step (some { step := none }))) =
          displayedStatus st := by
  intro st
  exact ⟨rfl, rfl⟩

/-- Claim C5, at the failing input: a TaskRow action that fails leaves
the displayed invoice status exactly where it was (no optimistic status
was ever applied, so the round-trip holds trivially) and re-enables
submission, but surfaces NO user-visible error message — the `catch`
block only logs to the console, which the source itself marks with a
TODO for the missing toast. -/
theorem taskrow_failure_no_error_surfaced :
    trSettle { submitting := true, invoiceStatus := some "APPROVAL_PENDING" } Outcome.fail =
      { state := { submitting := false, invoiceStatus := some "APPROVAL_PENDING" },
        userMessages := [], taskRemoved := false } ∧
      (tasksSettle { tasks := [], actioning := some "t1" } "approve" Outcome.fail []).2 =
        ["Approve failed"] := by
  exact ⟨rfl, rfl⟩

/-- Claim C6: while a submission is pending, a second approve/reject
click is rejected client-side — in TaskRow, `submitting` makes both
buttons disabled so a click neither changes state nor sends a request;
in the Tasks page, a truthy `actioning` does the same for any row,
including the one whose submission is pending. -/
theorem single_flight_guard :
    (∀ (st : TRState) (taskStatus : Option String),
        st.submitting = true →
        trDisabled st taskStatus = true ∧ trClickStart st taskStatus = (st, false)) ∧
      (∀ (st : TasksState) (t : Task) (a : String),
        jsTruthy st.actioning = true →
        tasksButtonDisabled st = true ∧ tasksClickStart st t a = (st, none)) := by
  constructor
  · intro st ts h
    constructor
    · simp [trDisabled, h]
    · simp [trClickStart, trDisabled, h]
  · intro st t a h
    constructor
    · simp [tasksButtonDisabled, h]
    · simp [tasksClickStart, tasksButtonDisabled, h]

/-- Claim C6, witness: with a submission pending, a concrete second
click on either component is a no-op and sends nothing. -/
theorem single_flight_guard_witness :
    (TRState.mk true none).submitting = true ∧
      (trDisabled (TRState.mk true none) none = true ∧
        trClickStart (TRState.mk true none) none = (TRState.mk true none, false)) ∧
      jsTruthy (TasksState.mk [] (some "t1")).actioning = true ∧
      (tasksButtonDisabled (TasksState.mk [] (some "t1")) = true ∧
        tasksClickStart (TasksState.mk [] (some "t1"))
          (Task.mk (some "t1") none "approval" "inv-1") "approve" =
          (TasksState.mk [] (some "t1"), none)) :=
  ⟨rfl, single_flight_guard.1 (TRState.mk true none) none rfl, rfl,
    single_flight_guard.2 (TasksState.mk [] (some "t1"))
      (Task.mk (some "t1") none "approval" "inv-1") "approve" rfl⟩

/-- Claim C10: on the pending-tasks page, while an action is in flight
(`actioning` truthy), the Approve and Reject buttons of EVERY listed
approval row are disabled — the `disabled` flag does not depend on which
row is rendered — so no action request for any task can be issued until
the in-flight action settles. -/
theorem all_rows_disabled_while_actioning :
    ∀ (st : TasksState) (t : Task),
      t ∈ st.tasks → t.ttype = "approval" → jsTruthy st.actioning = true →
      rowButtonsDisabled st t = some true ∧
        tasksClickStart st t "approve" = (st, none) ∧
        tasksClickStart st t "reject" = (st, none) := by
  intro st t hmem htype h
  refine ⟨?_, ?_, ?_⟩
  · simp [rowButtonsDisabled, tasksButtonDisabled, htype, h]
  · simp [tasksClickStart, tasksButtonDisabled, h]
  · simp [tasksClickStart, tasksButtonDisabled, h]

/-- Claim C10, witness: with task `t1`'s action in flight, the buttons
of the other listed approval task `t2` are disabled and its clicks send
nothing. -/
theorem all_rows_disabled_while_actioning_witness :
    Task.mk (some "t2") none "approval" "inv-2" ∈
        (TasksState.mk [Task.mk (some "t1") none "approval" "inv-1",
          Task.mk (some "t2") none "approval" "inv-2"] (some "t1")).tasks ∧
      (Task.mk (some "t2") none "approval" "inv-2").ttype = "approval" ∧
      jsTruthy (TasksState.mk [Task.mk (some "t1") none "approval" "inv-1",
          Task.mk (some "t2") none "approval" "inv-2"] (some "t1")).actioning = true ∧
      (rowButtonsDisabled (TasksState.mk [Task.mk (some "t1") none "approval" "inv-1",
            Task.mk (some "t2") none "approval" "inv-2"] (some "t1"))
          (Task.mk (some "t2") none "approval" "inv-2") = some true ∧
        tasksClickStart (TasksState.mk [Task.mk (some "t1") none "approval" "inv-1",
            Task.mk (some "t2") none "approval" "inv-2"] (some "t1"))
          (Task.mk (some "t2") none "approval" "inv-2") "approve" =
          (TasksState.mk [Task.mk (some "t1") none "approval" "inv-1",
            Task.mk (some "t2") none "approval" "inv-2"] (some "t1"), none) ∧
        tasksClickStart (TasksState.mk [Task.mk (some "t1") none "approval" "inv-1",
            Task.mk (some "t2") none "approval" "inv-2"] (some "t1"))
          (Task.mk (some "t2") none "approval" "inv-2") "reject" =
          (TasksState.mk [Task.mk (some "t1") none "approval" "inv-1",
            Task.mk (some "t2") none "approval" "inv-2"] (some "t1"), none)) :=
  ⟨by decide, rfl, rfl,
    all_rows_disabled_while_actioning
      (TasksState.mk [Task.mk (some "t1") none "approval" "inv-1",
        Task.mk (some "t2") none "approval" "inv-2"] (some "t1"))
      (Task.mk (some "t2") none "approval" "inv-2") (by decide) rfl rfl⟩

end InvoicePoc
